import Mathlib

/-!
Verification development for the bklog crate: a shallow embedding of the
on-disk backlog engine (header, frame, chunk, backlog) and proofs about it.

Modelling conventions:
* a byte is a `Nat` below 256; multi-byte integers use little-endian order
  (the crate reads and writes in native byte order; the model fixes the
  native order of the target to little-endian);
* `u32`/`u64`/`usize` arithmetic wraps at the machine width (release-build
  semantics), via `w32`/`w64`/`sub64`;
* a file is a length plus a byte function; `read_exact_at` fails past the
  end of the file, `write_all_at` extends the file, matching positioned
  unix file I/O on a healthy filesystem (the model does not inject
  spurious I/O errors, so the only `ioError` results are out-of-bounds
  reads);
* Rust panics (`unwrap`, `expect`, oversized `vec!` allocations) are
  modelled by the dedicated `Err.panicked` value, kept distinct from the
  typed error values the crate returns.
-/

/-- Truncation to 32 bits, i.e. `as u32` and wrapping `u32` arithmetic. -/
def w32 (n : Nat) : Nat := n % 4294967296

/-- Truncation to 64 bits, i.e. wrapping `u64`/`usize` arithmetic. -/
def w64 (n : Nat) : Nat := n % 18446744073709551616

/-- Wrapping 64-bit subtraction `a - b` (release-build overflow semantics). -/
def sub64 (a b : Nat) : Nat :=
  (w64 a + 18446744073709551616 - w64 b) % 18446744073709551616

/-- Little-endian bytes of the low 32 bits of `n` (`u32::to_ne_bytes`). -/
def toLE4 (n : Nat) : List Nat :=
  [n % 256, n / 256 % 256, n / 65536 % 256, n / 16777216 % 256]

/-- Value of a 4-byte little-endian buffer (`u32::from_ne_bytes`). -/
def fromLE4List (l : List Nat) : Nat :=
  l.getD 0 0 + 256 * l.getD 1 0 + 65536 * l.getD 2 0 + 16777216 * l.getD 3 0

/-- One shift step of the reflected CRC-32/ISCSI (Castagnoli) algorithm;
0x82F63B78 is the reflected Castagnoli polynomial. -/
def crcStep (c : Nat) : Nat :=
  if c % 2 = 1 then Nat.xor (c / 2) 2197175160 else c / 2

/-- Fold one byte into the running CRC state. -/
def crcByte (c b : Nat) : Nat := crcStep^[8] (Nat.xor c b)

/-- CRC-32/ISCSI over a byte list: init 0xFFFFFFFF, reflected, xorout
0xFFFFFFFF — the `crc` crate's `CRC_32_ISCSI` used via `CRC32.digest()`. -/
def crc32c (bytes : List Nat) : Nat :=
  Nat.xor (bytes.foldl crcByte 4294967295) 4294967295

/-- Frame (frame.rs): `length` is the whole frame size including the two
4-byte fields (`length = 8 + data.len()`), `data` the encoded entry,
`checksum` the CRC over `length`'s bytes then `data`. -/
structure Frame where
  length : Nat
  data : List Nat
  checksum : Nat
deriving DecidableEq

/-- The entry type the backlog stores, modelling the crate's test entry
`struct Test { a: u32, b: u32 }`; bincode with fixint encoding and native
endianness serializes it to 8 bytes. -/
structure Entry where
  a : Nat
  b : Nat
deriving DecidableEq

/-- Error outcomes of the embedded operations, covering the variants of the
crate's error enums that the modelled code paths can produce, plus
`panicked` for a Rust panic (which in the crate is divergence, not a typed
error value). -/
inductive Err where
  /-- An underlying `std::io::Error` (short positioned read). -/
  | ioError
  /-- A panic: a firing `unwrap`/`expect` or an oversized `vec!` allocation. -/
  | panicked
  /-- `WriteError::ChunkFull`, carrying the already-built frame. -/
  | chunkFull (frame : Frame)
  /-- `ReadError::InvalidChecksum` with offset, expected and actual value. -/
  | invalidChecksum (offset expected actual : Nat)
  /-- `ReadError::DeserializeError` at a byte offset. -/
  | deserializeError (offset : Nat)
  /-- `OpenError::InvalidSuffix` from `extract_suffix`. -/
  | invalidSuffix
deriving DecidableEq

/-- Bincode fixint little-endian serialization of an `Entry` (two `u32`). -/
def encode (e : Entry) : List Nat := toLE4 e.a ++ toLE4 e.b

/-- Bincode deserialization of an `Entry`; trailing bytes are rejected, so
exactly 8 bytes are required. -/
def decode (bytes : List Nat) : Option Entry :=
  if bytes.length = 8 then
    some ⟨fromLE4List (bytes.take 4), fromLE4List (bytes.drop 4)⟩
  else none

/-- A chunk file: current length plus byte contents (bytes beyond `size`
read as zero once written ranges are accounted for). -/
structure FsFile where
  size : Nat
  byteAt : Nat → Nat

/-- A freshly created, empty file. -/
def FsFile.empty : FsFile := ⟨0, fun _ => 0⟩

/-- `read_exact_at`: read `n` bytes at `offset`; fails (short read at EOF)
when the range is not fully inside the file. -/
def FsFile.readExactAt (f : FsFile) (n offset : Nat) : Except Err (List Nat) :=
  if offset + n ≤ f.size then
    .ok ((List.range n).map fun i => f.byteAt (offset + i))
  else .error .ioError

/-- `write_all_at`: write `bytes` at `offset`, growing the file if the
range extends past the current end (holes read as zero from `empty`). -/
def FsFile.writeAllAt (f : FsFile) (bytes : List Nat) (offset : Nat) : FsFile :=
  { size := max f.size (offset + bytes.length)
    byteAt := fun i =>
      if offset ≤ i ∧ i < offset + bytes.length then bytes.getD (i - offset) 0
      else f.byteAt i }

/-- `File::set_len`: resize, zero-filling any extension. -/
def FsFile.setLen (f : FsFile) (n : Nat) : FsFile :=
  ⟨n, fun i => if i < f.size then f.byteAt i else 0⟩

/-- Header (header.rs): the two `u32` cursors kept at offset 0 of every
chunk file. -/
structure Header where
  read_cursor : Nat
  write_cursor : Nat
deriving DecidableEq

/-- `Header::new`: zeroed cursors. -/
def Header.new : Header := ⟨0, 0⟩

/-- `Header::advance_read_cursor`: `self.read_cursor += offset as u32`
(truncating cast, then wrapping `u32` addition). -/
def Header.advance_read_cursor (h : Header) (offset : Nat) : Header :=
  { h with read_cursor := w32 (h.read_cursor + w32 offset) }

/-- `Header::advance_write_cursor`: `self.write_cursor += offset as u32`. -/
def Header.advance_write_cursor (h : Header) (offset : Nat) : Header :=
  { h with write_cursor := w32 (h.write_cursor + w32 offset) }

/-- The slice `l[a..b]` of a byte buffer. -/
def sliceRange (l : List Nat) (a b : Nat) : List Nat := (l.drop a).take (b - a)

/-- `<&[u8] as TryInto<[u8; 4]>>::try_into`: succeeds exactly on slices of
length 4. -/
def tryIntoArr4 (l : List Nat) : Option (List Nat) :=
  if l.length = 4 then some l else none

/-- `Header::read_from`: read 8 bytes at offset 0, then convert the slices
`header[0..3]` and `header[4..7]` — which hold 3 bytes each, exactly as in
the source — into 4-byte arrays with `try_into().unwrap()`. -/
def Header.read_from (f : FsFile) : Except Err Header :=
  match f.readExactAt 8 0 with
  | .error e => .error e
  | .ok header =>
    match tryIntoArr4 (sliceRange header 0 3), tryIntoArr4 (sliceRange header 4 7) with
    | some headerRead, some headerWrite =>
      .ok ⟨fromLE4List headerRead, fromLE4List headerWrite⟩
    | _, _ => .error .panicked

/-- `Header::write_into`: serialize both cursors back to offset 0. -/
def Header.write_into (h : Header) (f : FsFile) : FsFile :=
  f.writeAllAt (toLE4 h.read_cursor ++ toLE4 h.write_cursor) 0

/-- `Frame::from_entry`: encode the entry, set
`length = data.len() as u32 + 8`, checksum `length`'s bytes then `data`. -/
def Frame.from_entry (e : Entry) : Frame :=
  let data := encode e
  let length := w32 (w32 data.length + 8)
  let checksum := crc32c (toLE4 length ++ data)
  ⟨length, data, checksum⟩

/-- `Frame::len`: the whole frame size, as `u64`. -/
def Frame.len (fr : Frame) : Nat := fr.length

/-- `isize::MAX`; a `vec!` allocation larger than this panics. -/
def isizeMax : Nat := 9223372036854775807

/-- `Frame::from_file_at`: read `length` at `offset`, the checksum at
`offset + length - 4`, then `length - 8` data bytes at `offset + 4`
(subtractions wrap at the machine width as in a release build; a wrapped
`length - 8` exceeding `isize::MAX` makes `vec!` panic). -/
def Frame.from_file_at (f : FsFile) (offset : Nat) : Except Err Frame :=
  match f.readExactAt 4 offset with
  | .error e => .error e
  | .ok lengthBuffer =>
    let length := fromLE4List lengthBuffer
    let offsetData := w64 (offset + 4)
    let offsetChecksum := sub64 (w64 (offset + length)) 4
    match f.readExactAt 4 offsetChecksum with
    | .error e => .error e
    | .ok checksumBuffer =>
      let checksum := fromLE4List checksumBuffer
      let dataLen := sub64 length 8
      if isizeMax < dataLen then .error .panicked
      else
        match f.readExactAt dataLen offsetData with
        | .error e => .error e
        | .ok dataBuffer => .ok ⟨length, dataBuffer, checksum⟩

/-- `Frame::verify_checksum`: recompute the CRC over `length`'s bytes then
`data`; on mismatch return the stored (expected) and recomputed (actual)
values. -/
def Frame.verify_checksum (fr : Frame) : Except (Nat × Nat) Unit :=
  let newcheck := crc32c (toLE4 fr.length ++ fr.data)
  if fr.checksum = newcheck then .ok () else .error (fr.checksum, newcheck)

/-- `Frame::write_at`, with the offsets exactly as computed in the source:
`offset_data = offset + 4 + data.len()` and
`offset_checksum = offset + 4 + data.len() + 4`. -/
def Frame.write_at (fr : Frame) (f : FsFile) (offset : Nat) : FsFile :=
  let offsetLength := offset
  let offsetData := w64 (offset + 4 + fr.data.length)
  let offsetChecksum := w64 (offset + 4 + fr.data.length + 4)
  ((f.writeAllAt (toLE4 fr.length) offsetLength).writeAllAt
      fr.data offsetData).writeAllAt (toLE4 fr.checksum) offsetChecksum

/-- `Frame::deserialize`: bincode-decode the data back into an entry. -/
def Frame.deserialize (fr : Frame) : Option Entry := decode fr.data

/-- A file name, as its list of dot-separated components: `b.bkl` is
`["b", "bkl"]`, `b.bkl.2` is `["b", "bkl", "2"]`. -/
abbrev FileName := List String

/-- `Path::extension`: the component after the last dot, when the name has
more than one component. -/
def extension (p : FileName) : Option String :=
  if 2 ≤ p.length then p.getLast? else none

/-- `Path::with_extension`: replace the component after the last dot (or
append when there is none) with the given components; an argument string
containing dots, such as `format!("{}.bkl", n)`, contributes one component
per dot-separated piece. -/
def withExtension (p : FileName) (ext : List String) : FileName :=
  if 2 ≤ p.length then p.dropLast ++ ext else p ++ ext

/-- Decimal value of a digit string. -/
def digitsVal (s : List Char) : Nat :=
  s.foldl (fun a c => 10 * a + (c.toNat - 48)) 0

/-- `str::parse::<u32>`: every character a digit, value within `u32`. -/
def parseU32 (s : List Char) : Except Err Nat :=
  if s.all Char.isDigit ∧ s ≠ [] then
    if digitsVal s < 4294967296 then .ok (digitsVal s) else .error .invalidSuffix
  else .error .invalidSuffix

/-- `extract_suffix` (chunk.rs): `expect` panics when the path has no
extension; otherwise strip the leading run of non-digits from the
extension; an empty remainder means suffix 0, anything else is parsed as
`u32`. -/
def extract_suffix (p : FileName) : Except Err Nat :=
  match extension p with
  | none => .error .panicked
  | some ext =>
    let suffix := ext.toList.dropWhile (fun c => !c.isDigit)
    if suffix = [] then .ok 0 else parseU32 suffix

/-- Chunk (chunk.rs): path, numeric suffix position, byte-size ceiling,
the owned file, and the live header. -/
structure Chunk where
  path : FileName
  position : Nat
  size : Nat
  file : FsFile
  header : Header

/-- `Chunk::capacity`: `self.size as u64 - self.header.write_cursor()`,
a wrapping `u64` subtraction. -/
def Chunk.capacity (c : Chunk) : Nat := sub64 c.size c.header.write_cursor

/-- `Chunk::create` on a healthy filesystem with a fresh path: open a new
empty file, pre-allocate it to `size`, write a zeroed header; position 0.
(The source's error branches — existing path, permissions, space — are
initialization failures a fresh-path model never takes.) -/
def Chunk.create (path : FileName) (size : Nat) : Chunk :=
  let file := FsFile.empty.setLen size
  let header := Header.new
  ⟨path, 0, size, Header.write_into header file, header⟩

/-- `Chunk::open` (named `openChunk` because `open` is a Lean keyword), on
an existing file: parse the suffix from the path, then read the header
back from offset 0. -/
def Chunk.openChunk (path : FileName) (size : Nat) (file : FsFile) : Except Err Chunk :=
  match extract_suffix path with
  | .error e => .error e
  | .ok position =>
    match Header.read_from file with
    | .error e => .error e
    | .ok header => .ok ⟨path, position, size, file, header⟩

/-- `Chunk::read`: read one frame at the current read cursor (the raw
cursor value is the file offset used, exactly as in the source), verify
its checksum, decode it; no cursor moves. -/
def Chunk.read (c : Chunk) : Except Err Entry :=
  match Frame.from_file_at c.file c.header.read_cursor with
  | .error e => .error e
  | .ok frame =>
    match frame.verify_checksum with
    | .error p => .error (.invalidChecksum c.header.read_cursor p.1 p.2)
    | .ok _ =>
      match frame.deserialize with
      | some entry => .ok entry
      | none => .error (.deserializeError c.header.read_cursor)

/-- The loop of `Chunk::advance`: read the frame at the read cursor only
for its length, advance the in-memory cursor, repeat; on a read error the
cursor keeps the advances made so far. -/
def advanceLoop (file : FsFile) : Nat → Header → (Except Err Unit) × Header
  | 0, h => (.ok (), h)
  | n + 1, h =>
    match Frame.from_file_at file h.read_cursor with
    | .error e => (.error e, h)
    | .ok frame => advanceLoop file n (h.advance_read_cursor frame.len)

/-- `Chunk::advance`: run the loop, then persist the header and
flush-and-sync (a no-op on the model's healthy filesystem). On a loop
error the in-memory header keeps its partial advance but is not persisted,
as in the source. -/
def Chunk.advance (c : Chunk) (count : Nat) : (Except Err Unit) × Chunk :=
  match advanceLoop c.file count c.header with
  | (.error e, h) => (.error e, { c with header := h })
  | (.ok _, h) => (.ok (), { c with header := h, file := Header.write_into h c.file })

/-- `Chunk::write_frame`: when `capacity() >= frame.len()`, write the
frame at the write cursor (the raw cursor value is the file offset used,
exactly as in the source), advance the cursor by the frame length, persist
the header; otherwise fail with `ChunkFull` carrying the frame. -/
def Chunk.write_frame (c : Chunk) (frame : Frame) : Except Err Chunk :=
  if frame.len ≤ c.capacity then
    let file := frame.write_at c.file c.header.write_cursor
    let header := c.header.advance_write_cursor frame.len
    .ok { c with file := Header.write_into header file, header := header }
  else .error (.chunkFull frame)

/-- `Chunk::write_entry`: build the frame from the entry and delegate. -/
def Chunk.write_entry (c : Chunk) (e : Entry) : Except Err Chunk :=
  c.write_frame (Frame.from_entry e)

/-- `Chunk::rotate`: rename the file to
`self.path.with_extension(format!("{}.bkl", self.position + 1))`; the
source leaves `position` unchanged. Renaming succeeds on the healthy
filesystem. -/
def Chunk.rotate (c : Chunk) : Chunk :=
  { c with path := withExtension c.path [toString (c.position + 1), "bkl"] }

/-- Backlog (backlog.rs): base path, chunk size ceiling, the ordered chunk
handles, and the reading/writing indices. -/
structure Backlog where
  path : FileName
  chunk_size : Nat
  chunks : List Chunk
  reading_chunk : Nat
  writing_chunk : Nat

/-- The discovery loop of `Backlog::new`: open every file found by
`glob::find_files`, in the order returned. -/
def openAll (size : Nat) : List (FileName × FsFile) → Except Err (List Chunk)
  | [] => .ok []
  | (p, f) :: rest =>
    match Chunk.openChunk p size f with
    | .error e => .error e
    | .ok c =>
      match openAll size rest with
      | .error e => .error e
      | .ok cs => .ok (c :: cs)

/-- `Backlog::new`: open each discovered file as a chunk; when discovery
returns nothing, create a single fresh chunk at the canonical path; both
indices start at 0. `found` stands for the paths and contents
`glob::find_files` returns. -/
def Backlog.new (path : FileName) (size : Nat) (found : List (FileName × FsFile)) :
    Except Err Backlog :=
  match openAll size found with
  | .error e => .error e
  | .ok chunks =>
    let chunks := if chunks.isEmpty then [Chunk.create path size] else chunks
    .ok ⟨path, size, chunks, 0, 0⟩

/-- `Backlog::rotate`: rename every chunk held, bump the reading index,
reset the writing index to 0. The line creating a fresh canonical chunk is
commented out in the source, so no chunk is inserted. -/
def Backlog.rotate (b : Backlog) : Backlog :=
  { b with
    chunks := b.chunks.map Chunk.rotate
    reading_chunk := b.reading_chunk + 1
    writing_chunk := 0 }

/-- `Backlog::write_entry`: write into `chunks[writing_chunk]`; on
`ChunkFull` rotate and retry the same write once; any other failure
propagates. Out-of-bounds vector indexing is a panic. -/
def Backlog.write_entry (b : Backlog) (e : Entry) : (Except Err Unit) × Backlog :=
  match b.chunks.get? b.writing_chunk with
  | none => (.error .panicked, b)
  | some c =>
    match c.write_entry e with
    | .ok c1 => (.ok (), { b with chunks := b.chunks.set b.writing_chunk c1 })
    | .error err =>
      match err with
      | .chunkFull _ =>
        let b1 := b.rotate
        match b1.chunks.get? b1.writing_chunk with
        | none => (.error .panicked, b1)
        | some c2 =>
          match c2.write_entry e with
          | .ok c3 => (.ok (), { b1 with chunks := b1.chunks.set b1.writing_chunk c3 })
          | .error e2 => (.error e2, b1)
      | _ => (.error err, b)

/-- `Backlog::write_entries`: sequential writes, stopping at the first
failure. -/
def writeEntriesLoop : List Entry → Backlog → (Except Err Unit) × Backlog
  | [], b => (.ok (), b)
  | e :: rest, b =>
    match Backlog.write_entry b e with
    | (.ok _, b1) => writeEntriesLoop rest b1
    | (.error err, b1) => (.error err, b1)

/-- `Backlog::write_entries` public wrapper. -/
def Backlog.write_entries (b : Backlog) (entries : List Entry) :
    (Except Err Unit) × Backlog :=
  writeEntriesLoop entries b

/-- `Backlog::peek_entry`: one `read()` on the reading chunk; nothing is
mutated. -/
def Backlog.peek_entry (b : Backlog) : (Except Err Entry) × Backlog :=
  match b.chunks.get? b.reading_chunk with
  | none => (.error .panicked, b)
  | some c => (Chunk.read c, b)

/-- The loop of `peek_entries`/`read_entries`: `count` calls of `read()`
against the same chunk (whose cursor `read()` never moves). -/
def readLoop (c : Chunk) : Nat → Except Err (List Entry)
  | 0 => .ok []
  | n + 1 =>
    match Chunk.read c with
    | .error e => .error e
    | .ok entry =>
      match readLoop c n with
      | .error e => .error e
      | .ok rest => .ok (entry :: rest)

/-- `Backlog::peek_entries`: `count` reads, no cursor movement. -/
def Backlog.peek_entries (b : Backlog) (count : Nat) :
    (Except Err (List Entry)) × Backlog :=
  match b.chunks.get? b.reading_chunk with
  | none => (.error .panicked, b)
  | some c => (readLoop c count, b)

/-- `Backlog::consume`: advance the reading chunk past `count` frames. -/
def Backlog.consume (b : Backlog) (count : Nat) : (Except Err Unit) × Backlog :=
  match b.chunks.get? b.reading_chunk with
  | none => (.error .panicked, b)
  | some c =>
    match Chunk.advance c count with
    | (r, c1) => (r, { b with chunks := b.chunks.set b.reading_chunk c1 })

/-- `Backlog::read_entry`: one read then `advance(1)`. -/
def Backlog.read_entry (b : Backlog) : (Except Err Entry) × Backlog :=
  match b.chunks.get? b.reading_chunk with
  | none => (.error .panicked, b)
  | some c =>
    match Chunk.read c with
    | .error e => (.error e, b)
    | .ok entry =>
      match Chunk.advance c 1 with
      | (.error e, c1) => (.error e, { b with chunks := b.chunks.set b.reading_chunk c1 })
      | (.ok _, c1) => (.ok entry, { b with chunks := b.chunks.set b.reading_chunk c1 })

/-- `Backlog::read_entries`: `count` reads against the reading chunk, then
one `advance(count)`. -/
def Backlog.read_entries (b : Backlog) (count : Nat) :
    (Except Err (List Entry)) × Backlog :=
  match b.chunks.get? b.reading_chunk with
  | none => (.error .panicked, b)
  | some c =>
    match readLoop c count with
    | .error e => (.error e, b)
    | .ok entries =>
      match Chunk.advance c count with
      | (.error e, c1) => (.error e, { b with chunks := b.chunks.set b.reading_chunk c1 })
      | (.ok _, c1) => (.ok entries, { b with chunks := b.chunks.set b.reading_chunk c1 })

/-- The canonical backlog file name used in the concrete scenarios:
the file b.bkl. -/
def bklPath : FileName := ["b", "bkl"]

/-- Extract the chunk from a successful result (scenario helper; every use
below is justified by a proved equation with an explicit ok value). -/
def okChunk (r : Except Err Chunk) : Chunk :=
  match r with
  | .ok c => c
  | .error _ => Chunk.create [] 0

/-- A freshly created backlog over b.bkl with 64-byte chunks, exactly the
state Backlog.new builds when discovery finds nothing. -/
def freshB64 : Backlog := ⟨bklPath, 64, [Chunk.create bklPath 64], 0, 0⟩

/-- C1: FIFO ordering of batched reads. The claim says a freshly created
backlog given writes e1..en returns [e1..en] from read_entries n (and
peek_entries n). On the code this fails already at n = 1: the frame write
is issued at absolute file offset write_cursor = 0, where the header is
then persisted over it, so the subsequent read parses the header's
read_cursor field (zero) as the frame length and fails with an I/O error
instead of returning [e1]. -/
theorem fifo_batch_read_fails :
    Backlog.new bklPath 64 [] = .ok freshB64 ∧
    (freshB64.write_entry ⟨1, 2⟩).1 = .ok () ∧
    ((freshB64.write_entry ⟨1, 2⟩).2.read_entries 1).1 = .error .ioError ∧
    ((freshB64.write_entry ⟨1, 2⟩).2.peek_entries 1).1 = .error .ioError :=
  ⟨rfl, rfl, rfl, rfl⟩

/-- The chunk state after one entry is written into a fresh 64-byte chunk. -/
def c2After : Chunk := okChunk ((Chunk.create bklPath 64).write_entry ⟨1, 2⟩)

/-- C2: on-disk frame placement. The claim says every frame write lands at
file offset header_size + write_cursor (frame 0 at offset 8) and reads
come from header_size + read_cursor. In the code both Chunk.write_frame
and Chunk.read pass the raw cursor as the file offset: after the first
write (write_cursor was 0) the bytes at offset 8..12 — where the claim
places frame 0's length field [16,0,0,0] — are still zero, and reading
fails instead of returning the entry. -/
theorem frame_placement_ignores_header :
    (Chunk.create bklPath 64).write_entry ⟨1, 2⟩ = .ok c2After ∧
    c2After.header.write_cursor = 16 ∧
    c2After.file.readExactAt 4 8 = .ok [0, 0, 0, 0] ∧
    toLE4 (Frame.from_entry ⟨1, 2⟩).length = [16, 0, 0, 0] ∧
    ([0, 0, 0, 0] : List Nat) ≠ [16, 0, 0, 0] ∧
    Chunk.read c2After = .error .ioError :=
  ⟨rfl, rfl, rfl, rfl, by decide, rfl⟩

/-- A backlog whose only chunk has an 8-byte ceiling, so that any 16-byte
frame triggers the chunk-full path at once. -/
def tinyB : Backlog := ⟨bklPath, 8, [Chunk.create bklPath 8], 0, 0⟩

/-- C3: chunk-full recovery. The claim says the retry after rotation runs
against a brand-new chunk created at the canonical path and succeeds. In
the code the creation of that chunk is commented out, so rotation only
renames the existing chunks; the retry hits the same, still-full chunk and
write_entry surfaces ChunkFull to the caller. The final state still holds
the single renamed chunk and no new one. -/
theorem chunk_full_retry_fails_on_same_chunk :
    (tinyB.write_entry ⟨1, 2⟩).1 = .error (.chunkFull (Frame.from_entry ⟨1, 2⟩)) ∧
    ((tinyB.write_entry ⟨1, 2⟩).2).chunks.map Chunk.path = [["b", "1", "bkl"]] ∧
    ((tinyB.write_entry ⟨1, 2⟩).2).chunks.length = 1 ∧
    ((tinyB.write_entry ⟨1, 2⟩).2).writing_chunk = 0 :=
  ⟨rfl, rfl, rfl, rfl⟩

/-- C4: header parsing. The claim says read_from takes the first 4 bytes
as read_cursor and the next 4 as write_cursor, its only failure mode is a
propagated I/O error, and it reads back what write_into wrote. In the code
the slices are header[0..3] and header[4..7] — 3 bytes each — and their
conversion into 4-byte arrays is unwrapped, so read_from panics on every
file whose first 8 bytes exist, including one freshly produced by
write_into; the 8 bytes themselves were read successfully. -/
theorem header_read_from_panics :
    Header.read_from (Header.write_into ⟨3, 7⟩ (FsFile.empty.setLen 64)) =
      .error .panicked ∧
    (Header.write_into ⟨3, 7⟩ (FsFile.empty.setLen 64)).readExactAt 8 0 =
      .ok [3, 0, 0, 0, 7, 0, 0, 0] ∧
    Header.read_from (Header.write_into Header.new (FsFile.empty.setLen 64)) =
      .error .panicked :=
  ⟨rfl, rfl, rfl⟩

/-- A zero-filled 64-byte file. -/
def zero64 : FsFile := FsFile.empty.setLen 64

/-- The frame built from the entry (1, 2): length 16, data
[1,0,0,0,2,0,0,0]. -/
def fr12 : Frame := Frame.from_entry ⟨1, 2⟩

/-- C5: frame write layout. The claim says write_at puts the data at
offset+4 and the checksum at offset+4+len(data), and that from_file_at at
the same offset reads the frame back unchanged. In the code offset_data is
offset+4+len(data) and offset_checksum is offset+8+len(data): writing
fr12 at offset 0 leaves the claimed data region 4..12 zero, puts the data
at 12, and reading back at offset 0 yields a different frame (zero data,
checksum field read from the misplaced data bytes). -/
theorem frame_write_at_misplaces_fields :
    fr12.data = [1, 0, 0, 0, 2, 0, 0, 0] ∧
    (fr12.write_at zero64 0).readExactAt 8 4 = .ok [0, 0, 0, 0, 0, 0, 0, 0] ∧
    (fr12.write_at zero64 0).readExactAt 4 12 = .ok [1, 0, 0, 0] ∧
    Frame.from_file_at (fr12.write_at zero64 0) 0 =
      .ok ⟨16, [0, 0, 0, 0, 0, 0, 0, 0], 1⟩ ∧
    (⟨16, [0, 0, 0, 0, 0, 0, 0, 0], 1⟩ : Frame) ≠ fr12 :=
  ⟨rfl, rfl, rfl, rfl, by decide⟩

/-- Chunk state after the first 16-byte frame in a fresh 64-byte chunk. -/
def c6c1 : Chunk := okChunk ((Chunk.create bklPath 64).write_entry ⟨1, 1⟩)

/-- Chunk state after the second 16-byte frame. -/
def c6c2 : Chunk := okChunk (c6c1.write_entry ⟨2, 2⟩)

/-- Chunk state after the third 16-byte frame (write_cursor 48). -/
def c6c3 : Chunk := okChunk (c6c2.write_entry ⟨3, 3⟩)

/-- Chunk state after the fourth 16-byte frame, which the code accepts. -/
def c6c4 : Chunk := okChunk (c6c3.write_entry ⟨4, 4⟩)

/-- C6: capacity boundary. The claim says a 64-byte chunk has 56 bytes of
frame space, so after three 16-byte frames the fourth fails with
chunk-full. In the code capacity() = size - write_cursor ignores the
8-byte header: after three writes the cursor is 48 and capacity() = 16, so
the fourth 16-byte frame is accepted, the write cursor reaches 64, and the
file grows to 68 bytes — past its own 64-byte ceiling. -/
theorem fourth_frame_accepted_beyond_ceiling :
    (Chunk.create bklPath 64).write_entry ⟨1, 1⟩ = .ok c6c1 ∧
    c6c1.write_entry ⟨2, 2⟩ = .ok c6c2 ∧
    c6c2.write_entry ⟨3, 3⟩ = .ok c6c3 ∧
    c6c3.header.write_cursor = 48 ∧
    c6c3.capacity = 16 ∧
    c6c3.write_entry ⟨4, 4⟩ = .ok c6c4 ∧
    c6c4.header.write_cursor = 64 ∧
    c6c4.file.size = 68 :=
  ⟨rfl, rfl, rfl, rfl, rfl, rfl, rfl, rfl⟩

/-- C7: no panic on reachable conditions. The claim says every public
Backlog/Chunk operation on a condition reachable through normal use
returns a typed error instead of panicking. Opening an existing chunk file
is such a condition — it is what Backlog::new does whenever discovery
finds the canonical file — yet Chunk::open panics inside
Header::read_from (the 3-byte slice unwrap), after the suffix was parsed
fine; Backlog::new on that discovery result panics the same way. -/
theorem open_existing_chunk_panics :
    extract_suffix bklPath = .ok 0 ∧
    Chunk.openChunk bklPath 64 (Chunk.create bklPath 64).file = .error .panicked ∧
    Backlog.new bklPath 64 [(bklPath, (Chunk.create bklPath 64).file)] =
      .error .panicked :=
  ⟨rfl, rfl, rfl⟩

/-- A chunk handle at the rotated name b.bkl.3, suffix position 3, as the
naming scheme of the spec would produce it. -/
def chunkN : Chunk := ⟨["b", "bkl", "3"], 3, 64, FsFile.empty.setLen 64, Header.new⟩

/-- C8: rotation renaming. The claim says rotate renames stem.bkl to
stem.bkl.1 and stem.bkl.N to stem.bkl.(N+1). In the code the new name is
path.with_extension of the string (position+1).bkl, which replaces the
component after the last dot: b.bkl becomes b.1.bkl, not b.bkl.1, and
b.bkl.3 becomes b.bkl.4.bkl, not b.bkl.4; the position field is not
updated either. -/
theorem rotate_renames_to_wrong_suffix :
    (Chunk.rotate (Chunk.create bklPath 64)).path = ["b", "1", "bkl"] ∧
    (["b", "1", "bkl"] : FileName) ≠ ["b", "bkl", "1"] ∧
    (Chunk.rotate chunkN).path = ["b", "bkl", "4", "bkl"] ∧
    (["b", "bkl", "4", "bkl"] : FileName) ≠ ["b", "bkl", "4"] ∧
    (Chunk.rotate (Chunk.create bklPath 64)).position = 0 :=
  ⟨rfl, by decide, rfl, by decide, rfl⟩

/-- The raw data bytes of the valid frame used in the peek scenarios. -/
def wData : List Nat := [1, 0, 0, 0, 2, 0, 0, 0]

/-- A well-formed 16-byte frame image as from_file_at expects it at offset
0: length, data, then a checksum that matches. -/
def wBytes : List Nat := toLE4 16 ++ wData ++ toLE4 (crc32c (toLE4 16 ++ wData))

/-- A 64-byte chunk file holding that frame image at offset 0. -/
def wFile : FsFile := ⟨64, fun i => wBytes.getD i 0⟩

/-- A chunk whose read cursor points at the valid frame. -/
def wChunk : Chunk := ⟨bklPath, 0, 64, wFile, ⟨0, 16⟩⟩

/-- A backlog whose reading chunk holds one valid frame. -/
def wBacklog : Backlog := ⟨bklPath, 64, [wChunk], 0, 0⟩

set_option maxRecDepth 8000 in
/-- C9 counterexample: the claim includes that a process restart between
the two peeks still returns the same first entry. On the code the two
peeks do return the entry and leave everything unchanged, but the restart
— Backlog::new rediscovering the same file bytes — panics in
Header::read_from instead of returning the entry, so the claim as stated
fails at this concrete input. -/
theorem peek_restart_panics :
    (wBacklog.peek_entry).1 = .ok ⟨1, 2⟩ ∧
    (wBacklog.peek_entry).2 = wBacklog ∧
    Backlog.new bklPath 64 [(bklPath, wFile)] = .error .panicked :=
  ⟨rfl, rfl, rfl⟩

/-- C9 (amended): peek idempotence. Two consecutive peek_entry calls with
no intervening consume return the same entry, and the backlog — its
chunks, headers and file bytes included — is unchanged, so nothing on
disk moved. (The restart consequence stated by the original claim is
dropped: reopening a chunk panics, see the counterexample.) -/
theorem peek_entry_idempotent (b : Backlog) (e : Entry)
    (h : (b.peek_entry).1 = .ok e) :
    (b.peek_entry).2 = b ∧ ((b.peek_entry).2.peek_entry).1 = .ok e := by
  have h2 : (b.peek_entry).2 = b := by
    unfold Backlog.peek_entry
    cases b.chunks.get? b.reading_chunk <;> rfl
  exact ⟨h2, by rw [h2]; exact h⟩

set_option maxRecDepth 8000 in
/-- C9 witness: the idempotence theorem applied to the concrete backlog
holding one valid frame, whose first peek returns the entry (1, 2). -/
theorem peek_entry_idempotent_witness :
    (wBacklog.peek_entry).2 = wBacklog ∧
    ((wBacklog.peek_entry).2.peek_entry).1 = .ok ⟨1, 2⟩ :=
  peek_entry_idempotent wBacklog ⟨1, 2⟩ rfl

/-- C10: implicit cursor arithmetic. Both advance functions first truncate
their u64 argument to u32 and then add with wrapping u32 arithmetic, with
no bounds or overflow check against any chunk size (no size takes part in
the computation at all); advancing the fresh read cursor by 2^32 moves it
by nothing. -/
theorem advance_cursors_wrap_mod_u32 (h : Header) (n : Nat) :
    (h.advance_read_cursor n).read_cursor =
      (h.read_cursor + n % 4294967296) % 4294967296 ∧
    (h.advance_write_cursor n).write_cursor =
      (h.write_cursor + n % 4294967296) % 4294967296 ∧
    (h.advance_read_cursor n).write_cursor = h.write_cursor ∧
    (h.advance_write_cursor n).read_cursor = h.read_cursor ∧
    (Header.new.advance_read_cursor 4294967296).read_cursor = 0 :=
  ⟨rfl, rfl, rfl, rfl, rfl⟩
